import Mathlib

/-!
Verification of the request-dispatch and provider-abstraction layer of the
Darktable MCP server (src/tools/mcp_server: server.py, clients.py,
config.py).  Pure Python code is translated into executable Lean
definitions; the external collaborators (filesystem reads, the stdlib MIME
table, and the outbound HTTP calls performed by the provider clients) are
abstracted as an explicit environment record.
-/

/-- JSON values as produced by Python's json.loads: None, booleans, numbers,
strings, lists, and string-keyed dicts (modelled as association lists with
distinct keys).  Numbers are modelled as rationals. -/
inductive Json where
  | null
  | bool (b : Bool)
  | num (q : ℚ)
  | str (s : String)
  | arr (xs : List Json)
  | obj (kvs : List (String × Json))

/-- Key lookup in an association list (Python dict access). -/
def lookupKey {α : Type} : List (String × α) → String → Option α
  | [], _ => none
  | (k, v) :: kvs, key => if k = key then some v else lookupKey kvs key

/-- Python dict.get(key) on a JSON object (none when the key is absent). -/
def Json.objGet : Json → String → Option Json
  | .obj kvs, key => lookupKey kvs key
  | _, _ => none

/-- Python truthiness of a JSON value. -/
def truthy : Json → Bool
  | .null => false
  | .bool b => b
  | .num q => if q = 0 then false else true
  | .str s => if s = "" then false else true
  | .arr [] => false
  | .arr (_ :: _) => true
  | .obj [] => false
  | .obj (_ :: _) => true

/-- Python `x or default` applied to the result of a dict.get. -/
def pyOr (v : Option Json) (d : Json) : Json :=
  match v with
  | some x => if truthy x then x else d
  | none => d

/-- Python repr() of a JSON value (string escaping inside container reprs is
not modelled; no claim depends on it). -/
def pyRepr : Json → String
  | .null => "None"
  | .bool true => "True"
  | .bool false => "False"
  | .num q => if q.den = 1 then toString q.num else toString q
  | .str s => "'" ++ s ++ "'"
  | .arr xs => "[" ++ String.intercalate ", " (xs.attach.map (fun x => pyRepr x.1)) ++ "]"
  | .obj kvs => "\x7b" ++ String.intercalate ", "
      (kvs.attach.map (fun kv => "'" ++ kv.1.1 ++ "': " ++ pyRepr kv.1.2)) ++ "\x7d"
decreasing_by
  · simp_wf
    have := List.sizeOf_lt_of_mem x.2
    omega
  · simp_wf
    obtain ⟨⟨a, b⟩, hm⟩ := kv
    have := List.sizeOf_lt_of_mem hm
    simp at this ⊢
    omega

/-- Python str() of a JSON value. -/
def pyStr (j : Json) : String :=
  match j with
  | .str s => s
  | _ => pyRepr j

/-- Name of the Python type backing a JSON value (used in AttributeError and
TypeError messages; json.loads integers and floats are both `num`, shown as
int when the denominator is 1). -/
def pyTypeName : Json → String
  | .null => "NoneType"
  | .bool _ => "bool"
  | .num q => if q.den = 1 then "int" else "float"
  | .str _ => "str"
  | .arr _ => "list"
  | .obj _ => "dict"

/-- Error kinds raised inside the dispatch layer, as discriminated by
do_POST's except clauses: `validation` is Python ValueError, `provider` is
LLMClientError (clients.py), `other` is any other exception. -/
inductive Err where
  | validation (msg : String)
  | provider (msg : String)
  | other (msg : String)
deriving DecidableEq, Repr

/-- Message carried by an error (str(exc)). -/
def Err.msg : Err → String
  | .validation m => m
  | .provider m => m
  | .other m => m

/-- True exactly for the ValueError kind. -/
def Err.isValidation : Err → Bool
  | .validation _ => true
  | _ => false

/-- The two provider client classes constructed once in
MCPServerState.__init__ (clients.py). -/
inductive Client where
  | lmstudio
  | ollama
deriving DecidableEq, Repr

/-- hasattr(client, "chat"): both LMStudioClient and OllamaClient define a
chat method (clients.py lines 48 and 75). -/
def hasChat : Client → Bool
  | .lmstudio => true
  | .ollama => true

/-- hasattr(client, "vision"): both LMStudioClient and OllamaClient define a
vision method (clients.py lines 60 and 87). -/
def hasVision : Client → Bool
  | .lmstudio => true
  | .ollama => true

/-- Record of one provider-client method invocation (one outbound HTTP
round-trip is attempted per invocation). -/
structure Call where
  client : Client
  method : String
deriving DecidableEq, Repr

/-- Python str.startswith on character lists (String.startsWith of the
standard library does not reduce in the kernel, so the check is spelled out
structurally). -/
def leadsWith : List Char → List Char → Bool
  | [], _ => true
  | _ :: _, [] => false
  | p :: ps, c :: cs => if p = c then leadsWith ps cs else false

/-- Python str.startswith. -/
def strStartsWith (s pre : String) : Bool := leadsWith pre.data s.data

/-- Python str.lower on the ASCII range (the provider names matched against
it are ASCII). -/
def strToLower (s : String) : String := String.mk (s.data.map Char.toLower)

/-- AttributeError message raised when a method is looked up on a value of
the wrong dynamic type. -/
def noAttrMsg (tyName attr : String) : String :=
  "'" ++ tyName ++ "' object has no attribute '" ++ attr ++ "'"

/-- The base64 alphabet used by Python's base64.b64encode. -/
def b64Chars : List Char :=
  "ABCDEFGHIJKLMNOPQRSTUVWXYZabcdefghijklmnopqrstuvwxyz0123456789+/".toList

/-- Character for a 6-bit group (the argument is always below 64). -/
def b64Char (n : Nat) : Char := b64Chars.getD n 'A'

/-- Index of a character in the base64 alphabet. -/
def b64Val (c : Char) : Option Nat := b64Chars.indexOf? c

/-- base64.b64encode on a byte list: every 3 input bytes become 4 alphabet
characters, with '=' padding for a 1- or 2-byte tail. -/
def b64encodeBytes : List Nat → List Char
  | [] => []
  | [a] => [b64Char (a / 4), b64Char (a % 4 * 16), '=', '=']
  | [a, b] => [b64Char (a / 4), b64Char (a % 4 * 16 + b / 16), b64Char (b % 16 * 4), '=']
  | a :: b :: c :: rest =>
      b64Char (a / 4) :: b64Char (a % 4 * 16 + b / 16) ::
      b64Char (b % 16 * 4 + c / 64) :: b64Char (c % 64) :: b64encodeBytes rest

/-- Inverse of `b64encodeBytes`: decodes a padded base64 character stream
back to bytes, failing on characters outside the alphabet or a malformed
tail. -/
def b64decodeChars : List Char → Option (List Nat)
  | [] => some []
  | w :: x :: y :: z :: rest => do
      let p ← b64Val w
      let q ← b64Val x
      if y = '=' ∧ z = '=' ∧ rest = [] then
        pure [p * 4 + q / 16]
      else if z = '=' ∧ rest = [] then
        let r ← b64Val y
        pure [p * 4 + q / 16, q % 16 * 16 + r / 4]
      else do
        let r ← b64Val y
        let s ← b64Val z
        let tail ← b64decodeChars rest
        pure ((p * 4 + q / 16) :: (q % 16 * 16 + r / 4) :: (r % 4 * 64 + s) :: tail)
  | _ => none

/-- External collaborators of the dispatch layer: filesystem reads performed
by encode_image_to_base64, the stdlib mimetypes.guess_type table, and the
outbound HTTP requests performed by the four provider-client methods of
clients.py, each abstracted as a function of the arguments the dispatcher
passes to it. -/
structure Env where
  readFile : String → Option (List Nat)
  guessMime : String → Option String
  lmChat : Json → Option Json → Json → Except Err Json
  ollamaChat : Json → Option Json → Except Err Json
  lmVision : Json → List String → Option Json → Except Err Json
  ollamaVision : Json → List String → Option Json → Except Err Json

/-- ProviderConfig (config.py): settings for a single LLM provider. -/
structure ProviderConfig where
  base_url : String
  api_key : Option String
  default_model : Option String
  timeout : ℚ

/-- ProviderConfig.to_dict: serialisable representation with the api_key
replaced by "<hidden>" when truthy. -/
def ProviderConfig.to_dict (c : ProviderConfig) : Json :=
  .obj [("base_url", .str c.base_url),
        ("api_key", match c.api_key with
          | some k => if k = "" then Json.null else .str "<hidden>"
          | none => Json.null),
        ("default_model", match c.default_model with
          | some m => Json.str m
          | none => Json.null),
        ("timeout", .num c.timeout)]

/-- MCPServerConfig (config.py): top-level server configuration. -/
structure MCPServerConfig where
  host : String
  port : Int
  default_provider : String
  lm_studio : ProviderConfig
  ollama : ProviderConfig

/-- MCPServerConfig.as_dict: diagnostics snapshot without secrets. -/
def MCPServerConfig.as_dict (c : MCPServerConfig) : Json :=
  .obj [("host", .str c.host),
        ("port", .num (c.port : ℚ)),
        ("default_provider", .str c.default_provider),
        ("providers", .obj [("lmstudio", c.lm_studio.to_dict),
                            ("ollama", c.ollama.to_dict)])]

/-- MCPServerState: state shared across HTTP requests; the `_clients` dict
it builds is the fixed mapping `clientsMap` below. -/
structure MCPServerState where
  config : MCPServerConfig

/-- The `_clients` mapping built in MCPServerState.__init__. -/
def clientsMap : List (String × Client) :=
  [("lmstudio", Client.lmstudio), ("ollama", Client.ollama)]

/-- Message of the ValueError raised for an unknown provider name. -/
def unsupportedProviderMsg (name : String) : String :=
  "Unsupported provider '" ++ name ++ "'."

/-- MCPServerState.get_client: `(provider or default).lower()` followed by a
membership test on `_clients`; calling .lower() on a truthy non-string
provider value raises AttributeError. -/
def MCPServerState.get_client (st : MCPServerState) (provider : Option Json) :
    Except Err (String × Client) :=
  match pyOr provider (.str st.config.default_provider) with
  | .str s =>
      let provider_name := strToLower s
      match lookupKey clientsMap provider_name with
      | some c => .ok (provider_name, c)
      | none => .error (.validation (unsupportedProviderMsg provider_name))
  | v => .error (.other (noAttrMsg (pyTypeName v) "lower"))

/-- encode_image_to_base64 (clients.py): reads the file's bytes and base64
encodes them; a missing or unreadable file raises OSError from open(), which
is neither a ValueError nor an LLMClientError. -/
def encode_image_to_base64 (env : Env) (path : String) : Except Err String :=
  match env.readFile path with
  | some raw => .ok (String.mk (b64encodeBytes raw))
  | none => .error (.other ("[Errno 2] No such file or directory: '" ++ path ++ "'"))

/-- MCPServerState._load_image: MIME type from the hint when truthy, else
from mimetypes.guess_type on the path, then the base64-encoded file
contents.  A non-string path raises TypeError inside guess_type before the
file is opened. -/
def load_image (env : Env) (path : Json) (mime_hint : Option Json) :
    Except Err (String × Option Json) :=
  match path with
  | .str p =>
      let mime_type : Option Json :=
        match mime_hint with
        | some h => if truthy h then some h else (env.guessMime p).map Json.str
        | none => (env.guessMime p).map Json.str
      match encode_image_to_base64 env p with
      | .ok encoded => .ok (encoded, mime_type)
      | .error e => .error e
  | v => .error (.other ("expected str, bytes or os.PathLike object, not " ++ pyTypeName v))

/-- Message of the ValueError raised for an image entry of unsupported
shape. -/
def unsupportedEntryMsg : String :=
  "Unsupported image entry format. Use a path string or an object with 'path', 'base64' or 'data_uri'."

/-- MCPServerState._normalise_image_entry: a bare string is a filesystem
path; a dict is tried for 'data_uri', then 'base64', then 'path'; anything
else raises ValueError.  Field values are passed through with their dynamic
types. -/
def normalise_image_entry (env : Env) (entry : Json) :
    Except Err (Json × Option Json) :=
  match entry with
  | .str s =>
      match load_image env (.str s) none with
      | .ok (encoded, mime) => .ok (.str encoded, mime)
      | .error e => .error e
  | .obj kvs =>
      match lookupKey kvs "data_uri" with
      | some value => .ok (value, none)
      | none =>
        match lookupKey kvs "base64" with
        | some value => .ok (value, lookupKey kvs "mime")
        | none =>
          match lookupKey kvs "path" with
          | some p =>
              match load_image env p (lookupKey kvs "mime") with
              | .ok (encoded, mime) => .ok (.str encoded, mime)
              | .error e => .error e
          | none => .error (.validation unsupportedEntryMsg)
  | _ => .error (.validation unsupportedEntryMsg)

/-- Third component of Python str.partition(",") on a character list. -/
def afterCommaAux : List Char → List Char
  | [] => []
  | c :: rest => if c = ',' then rest else afterCommaAux rest

/-- Everything after the first comma of a string, or "" when it has none
(the `data` component of encoded.partition(",")). -/
def afterFirstComma (s : String) : String := String.mk (afterCommaAux s.data)

/-- MCPServerState._format_for_provider on string-typed arguments, exactly
as the source annotates them (encoded: str, mime_type: str | None); a falsy
(empty) mime string degrades to the image/png default via `or`. -/
def format_for_provider (provider : String) (encoded : String)
    (mime_type : Option String) : String :=
  if provider = "lmstudio" then
    if strStartsWith encoded "data:" then encoded
    else
      let mime := match mime_type with
        | some m => if m = "" then "image/png" else m
        | none => "image/png"
      "data:" ++ mime ++ ";base64," ++ encoded
  else if provider = "ollama" then
    if strStartsWith encoded "data:" then afterFirstComma encoded
    else encoded
  else encoded

/-- Bridges the dynamically typed mime value flowing out of
_normalise_image_entry into _format_for_provider: Python's `or` treats a
falsy mime as absent, and a truthy non-string renders through str() inside
the f-string. -/
def mimeArg : Option Json → Option String
  | none => none
  | some v => if truthy v then some (pyStr v) else none

/-- One step of MCPServerState._prepare_images: format the normalised value
for the provider.  A non-string encoded value raises AttributeError at
encoded.startswith; the provider argument always comes from get_client and
is therefore one of the two names for which startswith is evaluated. -/
def format_step (provider : String) (encoded : Json) (mime : Option Json) :
    Except Err String :=
  match encoded with
  | .str e => .ok (format_for_provider provider e (mimeArg mime))
  | v => .error (.other (noAttrMsg (pyTypeName v) "startswith"))

/-- MCPServerState._prepare_images: normalise then format each entry in
order, propagating the first exception. -/
def prepare_images (provider : String) (env : Env) : List Json → Except Err (List String)
  | [] => .ok []
  | e :: rest =>
    match normalise_image_entry env e with
    | .error err => .error err
    | .ok (encoded, mime) =>
      match format_step provider encoded mime with
      | .error err => .error err
      | .ok s =>
        match prepare_images provider env rest with
        | .error err => .error err
        | .ok ss => .ok (s :: ss)

/-- Python check `not isinstance(x, list) or not x` raising ValueError with
the given message; on success the non-empty list is returned. -/
def requireNonEmptyList (v : Option Json) (msg : String) : Except Err (List Json) :=
  match v with
  | some (.arr (x :: xs)) => .ok (x :: xs)
  | _ => .error (.validation msg)

/-- Invocation of client.chat.  server.py passes the temperature keyword
exactly when provider_name == "lmstudio", which under `clientsMap` is
exactly the LMStudioClient variant; OllamaClient.chat takes no temperature.
Each invocation performs one outbound HTTP POST, abstracted into the
environment. -/
def clientChat (c : Client) (env : Env) (messages : Json) (model : Option Json)
    (temperature : Json) : Except Err Json :=
  match c with
  | .lmstudio => env.lmChat messages model temperature
  | .ollama => env.ollamaChat messages model

/-- Invocation of client.vision with the provider-formatted image strings. -/
def clientVision (c : Client) (env : Env) (prompt : Json) (images : List String)
    (model : Option Json) : Except Err Json :=
  match c with
  | .lmstudio => env.lmVision prompt images model
  | .ollama => env.ollamaVision prompt images model

/-- ValueError messages of the capability guards in chat, vision and
batch. -/
def noChatMsg (name : String) : String :=
  "Provider '" ++ name ++ "' does not support chat operations."

/-- Capability-guard message of MCPServerState.vision. -/
def noVisionMsg (name : String) : String :=
  "Provider '" ++ name ++ "' does not support vision analysis."

/-- Capability-guard message of MCPServerState.batch. -/
def noBatchVisionMsg (name : String) : String :=
  "Provider '" ++ name ++ "' does not support batch vision analysis."

/-- ValueError message of the messages-field check in chat. -/
def messagesMsg : String := "'messages' must be a non-empty list."

/-- ValueError message of the images-field check in vision and batch. -/
def imagesMsg : String := "'images' must be a non-empty list."

/-- MCPServerState.chat.  The second component lists the provider-client
invocations performed; payload.get on a non-dict raises AttributeError. -/
def MCPServerState.chat (st : MCPServerState) (env : Env) (payload : Json) :
    Except Err Json × List Call :=
  match payload with
  | .obj _ =>
    (match st.get_client (payload.objGet "provider") with
     | .error e => (.error e, [])
     | .ok (provider_name, client) =>
       match requireNonEmptyList (payload.objGet "messages") messagesMsg with
       | .error e => (.error e, [])
       | .ok msgs =>
         let messages : Json := .arr msgs
         let model := payload.objGet "model"
         let temperature := (payload.objGet "temperature").getD (.num (2/10))
         if hasChat client then
           (match clientChat client env messages model temperature with
            | .ok r => .ok (.obj [("provider", .str provider_name), ("response", r)])
            | .error e => .error e,
            [⟨client, "chat"⟩])
         else (.error (.validation (noChatMsg provider_name)), []))
  | v => (.error (.other (noAttrMsg (pyTypeName v) "get")), [])

/-- MCPServerState.vision: prompt defaulting, images check, normalisation
and formatting of all entries, capability guard, then one vision call. -/
def MCPServerState.vision (st : MCPServerState) (env : Env) (payload : Json) :
    Except Err Json × List Call :=
  match payload with
  | .obj _ =>
    (match st.get_client (payload.objGet "provider") with
     | .error e => (.error e, [])
     | .ok (provider_name, client) =>
       let prompt := pyOr (payload.objGet "prompt") (.str "Describe the image")
       match requireNonEmptyList (payload.objGet "images") imagesMsg with
       | .error e => (.error e, [])
       | .ok images =>
         match prepare_images provider_name env images with
         | .error e => (.error e, [])
         | .ok prepared =>
           let model := payload.objGet "model"
           if hasVision client then
             (match clientVision client env prompt prepared model with
              | .ok r => .ok (.obj [("provider", .str provider_name), ("response", r)])
              | .error e => .error e,
              [⟨client, "vision"⟩])
           else (.error (.validation (noVisionMsg provider_name)), []))
  | v => (.error (.other (noAttrMsg (pyTypeName v) "get")), [])

/-- Body of the per-entry loop in MCPServerState.batch: prepare the single
entry, then one vision call. -/
def entryStep (provider_name : String) (client : Client) (env : Env)
    (prompt : Json) (model : Option Json) (entry : Json) :
    Except Err Json × List Call :=
  match prepare_images provider_name env [entry] with
  | .error e => (.error e, [])
  | .ok prepared => (clientVision client env prompt prepared model, [⟨client, "vision"⟩])

/-- The results-accumulating loop of MCPServerState.batch: the first raised
exception aborts the loop and the partial results list is dropped. -/
def batchLoop (provider_name : String) (client : Client) (env : Env)
    (prompt : Json) (model : Option Json) :
    List Json → Except Err (List Json) × List Call
  | [] => (.ok [], [])
  | entry :: rest =>
    match entryStep provider_name client env prompt model entry with
    | (.error e, calls) => (.error e, calls)
    | (.ok response, calls) =>
      match batchLoop provider_name client env prompt model rest with
      | (.error e, calls2) => (.error e, calls ++ calls2)
      | (.ok items, calls2) =>
        (.ok (Json.obj [("image", entry), ("response", response)] :: items),
         calls ++ calls2)

/-- MCPServerState.batch. -/
def MCPServerState.batch (st : MCPServerState) (env : Env) (payload : Json) :
    Except Err Json × List Call :=
  match payload with
  | .obj _ =>
    (match st.get_client (payload.objGet "provider") with
     | .error e => (.error e, [])
     | .ok (provider_name, client) =>
       let prompt := pyOr (payload.objGet "prompt") (.str "Describe the image")
       match requireNonEmptyList (payload.objGet "images") imagesMsg with
       | .error e => (.error e, [])
       | .ok items =>
         let model := payload.objGet "model"
         if hasVision client then
           match batchLoop provider_name client env prompt model items with
           | (.error e, calls) => (.error e, calls)
           | (.ok results, calls) =>
             (.ok (.obj [("provider", .str provider_name), ("results", .arr results)]),
              calls)
         else (.error (.validation (noBatchVisionMsg provider_name)), []))
  | v => (.error (.other (noAttrMsg (pyTypeName v) "get")), [])

/-- HTTP response as written by MCPRequestHandler._send_json: a status code
and a JSON body; the 204 preflight response carries no body. -/
structure HttpResponse where
  status : Nat
  body : Option Json

/-- Outcome of reading a request body before JSON decoding: no body
(Content-Length absent or not positive), undecodable text (with the decoder
message), or a decoded JSON value. -/
inductive Body where
  | missing
  | invalid (msg : String)
  | json (j : Json)

/-- MCPRequestHandler._parse_json. -/
def parse_json : Body → Except String Json
  | .missing => .error "Missing request body"
  | .invalid m => .error ("Invalid JSON payload: " ++ m)
  | .json j => .ok j

/-- Routing of POST paths to dispatcher operations (the if/elif chain of
do_POST); none for paths outside the three dispatcher routes. -/
def dispatchPost (st : MCPServerState) (env : Env) (path : String) (payload : Json) :
    Option (Except Err Json × List Call) :=
  if path = "/chat" then some (st.chat env payload)
  else if path = "/analyze" then some (st.vision env payload)
  else if path = "/batch" then some (st.batch env payload)
  else none

/-- Status code chosen by do_POST's except clauses: ValueError and
LLMClientError map to 400, anything else to 500. -/
def Err.status : Err → Nat
  | .validation _ => 400
  | .provider _ => 400
  | .other _ => 500

/-- MCPRequestHandler.do_POST: parse the body first, then route; dispatcher
exceptions become error responses with the status given by their kind. -/
def do_POST (st : MCPServerState) (env : Env) (path : String) (body : Body) :
    HttpResponse × List Call :=
  match parse_json body with
  | .error m => (⟨400, some (.obj [("error", .str m)])⟩, [])
  | .ok payload =>
    match dispatchPost st env path payload with
    | none => (⟨404, some (.obj [("error", .str "Unknown endpoint")])⟩, [])
    | some (.ok result, calls) => (⟨200, some result⟩, calls)
    | some (.error e, calls) => (⟨e.status, some (.obj [("error", .str e.msg)])⟩, calls)

/-- MCPRequestHandler.do_GET. -/
def do_GET (st : MCPServerState) (path : String) : HttpResponse :=
  if path = "/health" then ⟨200, some (.obj [("status", .str "ok")])⟩
  else if path = "/config" then ⟨200, some st.config.as_dict⟩
  else ⟨404, some (.obj [("error", .str "Unknown endpoint")])⟩

/-- HTTP methods for which MCPRequestHandler defines a handler; requests
with any other method are answered by the http.server library itself,
outside this layer. -/
inductive Method where
  | get
  | post
  | options
deriving DecidableEq, Repr

/-- Dispatch of one HTTP request to the matching do_ handler of
MCPRequestHandler. -/
def handle (st : MCPServerState) (env : Env) (m : Method) (path : String)
    (body : Body) : HttpResponse × List Call :=
  match m with
  | .get => (do_GET st path, [])
  | .post => do_POST st env path body
  | .options => (⟨204, none⟩, [])

/-- Concrete configuration mirroring the defaults of MCPServerConfig. -/
def cfg0 : MCPServerConfig :=
  ⟨"127.0.0.1", 8082, "lmstudio",
   ⟨"http://localhost:1234", none, some "vision", 60⟩,
   ⟨"http://localhost:11434", none, some "llava", 60⟩⟩

/-- Server state over the default configuration. -/
def st0 : MCPServerState := ⟨cfg0⟩

/-- Deterministic environment used to instantiate the theorems: one readable
file, one MIME table entry, and provider calls that always succeed with
fixed responses. -/
def env0 : Env where
  readFile := fun p => if p = "/ok.png" then some [0, 1, 2] else none
  guessMime := fun p => if p = "/ok.png" then some "image/png" else none
  lmChat := fun _ _ _ => .ok (.str "lm-chat")
  ollamaChat := fun _ _ => .ok (.str "ollama-chat")
  lmVision := fun _ _ _ => .ok (.str "lm-vision")
  ollamaVision := fun _ _ _ => .ok (.str "ollama-vision")

/-- Alphabet lookup inverts the alphabet indexing on 6-bit values. -/
theorem b64Val_b64Char : ∀ n < 64, b64Val (b64Char n) = some n := by decide

/-- Alphabet characters are never the padding character. -/
theorem b64Char_ne_pad : ∀ n < 64, b64Char n ≠ '=' := by decide

/-- Decoding inverts encoding on byte lists. -/
theorem b64_roundtrip : ∀ bs : List Nat, (∀ b ∈ bs, b < 256) →
    b64decodeChars (b64encodeBytes bs) = some bs
  | [], _ => rfl
  | [a], h => by
    have ha : a < 256 := h a (by simp)
    have h1 : a / 4 < 64 := by omega
    have h2 : a % 4 * 16 < 64 := by omega
    simp [b64encodeBytes, b64decodeChars, b64Val_b64Char _ h1, b64Val_b64Char _ h2]
    omega
  | [a, b], h => by
    have ha : a < 256 := h a (by simp)
    have hb : b < 256 := h b (by simp)
    have h1 : a / 4 < 64 := by omega
    have h2 : a % 4 * 16 + b / 16 < 64 := by omega
    have h3 : b % 16 * 4 < 64 := by omega
    simp [b64encodeBytes, b64decodeChars, b64Val_b64Char _ h1, b64Val_b64Char _ h2,
      b64Val_b64Char _ h3, b64Char_ne_pad _ h3]
    constructor <;> omega
  | a :: b :: c :: rest, h => by
    have ha : a < 256 := h a (by simp)
    have hb : b < 256 := h b (by simp)
    have hc : c < 256 := h c (by simp)
    have ih := b64_roundtrip rest (fun x hx => h x (by simp [hx]))
    have h1 : a / 4 < 64 := by omega
    have h2 : a % 4 * 16 + b / 16 < 64 := by omega
    have h3 : b % 16 * 4 + c / 64 < 64 := by omega
    have h4 : c % 64 < 64 := by omega
    simp [b64encodeBytes, b64decodeChars, b64Val_b64Char _ h1, b64Val_b64Char _ h2,
      b64Val_b64Char _ h3, b64Val_b64Char _ h4, b64Char_ne_pad _ h3, b64Char_ne_pad _ h4,
      ih]
    refine ⟨by omega, by omega, by omega⟩

/-- True exactly for the entry shapes accepted by the isinstance checks of
_normalise_image_entry (str or dict). -/
def isStrOrDict : Json → Bool
  | .str _ => true
  | .obj _ => true
  | _ => false

/-- C5: image-entry normalisation resolves in the order bare string (file
read, base64 encoding, MIME guessed from the path), then 'data_uri' (value
passed through, no MIME), then 'base64' (value with optional 'mime' field),
then 'path' (like the bare string but honouring a truthy 'mime' hint); any
other shape raises the ValueError naming the accepted shapes. -/
theorem claim_C5 (env : Env) (s : String) (bs : List Nat)
    (kvs : List (String × Json)) (v hintm entry : Json) :
    (env.readFile s = some bs →
      normalise_image_entry env (.str s) =
        .ok (.str (String.mk (b64encodeBytes bs)), (env.guessMime s).map Json.str)) ∧
    (lookupKey kvs "data_uri" = some v →
      normalise_image_entry env (.obj kvs) = .ok (v, none)) ∧
    (lookupKey kvs "data_uri" = none → lookupKey kvs "base64" = some v →
      normalise_image_entry env (.obj kvs) = .ok (v, lookupKey kvs "mime")) ∧
    (lookupKey kvs "data_uri" = none → lookupKey kvs "base64" = none →
      lookupKey kvs "path" = some (.str s) → lookupKey kvs "mime" = some hintm →
      truthy hintm = true → env.readFile s = some bs →
      normalise_image_entry env (.obj kvs) =
        .ok (.str (String.mk (b64encodeBytes bs)), some hintm)) ∧
    (lookupKey kvs "data_uri" = none → lookupKey kvs "base64" = none →
      lookupKey kvs "path" = some (.str s) → lookupKey kvs "mime" = none →
      env.readFile s = some bs →
      normalise_image_entry env (.obj kvs) =
        .ok (.str (String.mk (b64encodeBytes bs)), (env.guessMime s).map Json.str)) ∧
    (lookupKey kvs "data_uri" = none → lookupKey kvs "base64" = none →
      lookupKey kvs "path" = none →
      normalise_image_entry env (.obj kvs) = .error (.validation unsupportedEntryMsg)) ∧
    (isStrOrDict entry = false →
      normalise_image_entry env entry = .error (.validation unsupportedEntryMsg)) := by
  refine ⟨?_, ?_, ?_, ?_, ?_, ?_, ?_⟩
  · intro h
    simp [normalise_image_entry, load_image, encode_image_to_base64, h]
  · intro h
    simp [normalise_image_entry, h]
  · intro h1 h2
    simp [normalise_image_entry, h1, h2]
  · intro h1 h2 h3 h4 h5 h6
    simp [normalise_image_entry, load_image, encode_image_to_base64, h1, h2, h3, h4, h5, h6]
  · intro h1 h2 h3 h4 h5
    simp [normalise_image_entry, load_image, encode_image_to_base64, h1, h2, h3, h4, h5]
  · intro h1 h2 h3
    simp [normalise_image_entry, h1, h2, h3]
  · intro h
    cases entry <;> simp_all [normalise_image_entry, isStrOrDict]

/-- Closed instantiation of claim_C5 at concrete entries. -/
theorem claim_C5_witness :
    (Env.readFile env0 "/ok.png" = some [0, 1, 2]) ∧
    normalise_image_entry env0 (.str "/ok.png") =
      .ok (.str (String.mk (b64encodeBytes [0, 1, 2])),
           (Env.guessMime env0 "/ok.png").map Json.str) ∧
    (lookupKey [("base64", Json.str "QQ=="), ("data_uri", Json.str "data:u")] "data_uri"
      = some (Json.str "data:u")) ∧
    normalise_image_entry env0
        (.obj [("base64", Json.str "QQ=="), ("data_uri", Json.str "data:u")]) =
      .ok (.str "data:u", none) ∧
    normalise_image_entry env0 (.num 7) = .error (.validation unsupportedEntryMsg) :=
  ⟨rfl,
   (claim_C5 env0 "/ok.png" [0, 1, 2] [] .null .null .null).1 rfl,
   rfl,
   (claim_C5 env0 "" [] [("base64", Json.str "QQ=="), ("data_uri", Json.str "data:u")]
     (Json.str "data:u") .null .null).2.1 rfl,
   (claim_C5 env0 "" [] [] .null .null (Json.num 7)).2.2.2.2.2.2 rfl⟩

/-- C6: provider formatting is the identity on data: URIs for lmstudio and
otherwise builds a data URI with image/png as fallback MIME; for ollama it
strips everything up to and including the first comma of a data: URI and
passes raw base64 through; and base64 encoding round-trips. -/
theorem claim_C6 (e m : String) (mime : Option String) (bs : List Nat) :
    (strStartsWith e "data:" = true → format_for_provider "lmstudio" e mime = e) ∧
    (strStartsWith e "data:" = false → m ≠ "" →
      format_for_provider "lmstudio" e (some m) = "data:" ++ m ++ ";base64," ++ e) ∧
    (strStartsWith e "data:" = false →
      format_for_provider "lmstudio" e none = "data:" ++ "image/png" ++ ";base64," ++ e) ∧
    (strStartsWith e "data:" = true → format_for_provider "ollama" e mime = afterFirstComma e) ∧
    (strStartsWith e "data:" = false → format_for_provider "ollama" e mime = e) ∧
    ((∀ b ∈ bs, b < 256) → b64decodeChars (b64encodeBytes bs) = some bs) := by
  refine ⟨?_, ?_, ?_, ?_, ?_, b64_roundtrip bs⟩
  · intro h
    simp [format_for_provider, h]
  · intro h hm
    simp [format_for_provider, h, hm]
  · intro h
    simp [format_for_provider, h]
  · intro h
    simp [format_for_provider, h]
  · intro h
    simp [format_for_provider, h]

/-- Closed instantiation of claim_C6 at concrete strings and bytes. -/
theorem claim_C6_witness :
    (strStartsWith "data:image/png;base64,QUJD" "data:" = true) ∧
    format_for_provider "lmstudio" "data:image/png;base64,QUJD" (some "image/jpeg") =
      "data:image/png;base64,QUJD" ∧
    (strStartsWith "QUJD" "data:" = false) ∧
    format_for_provider "lmstudio" "QUJD" (some "image/jpeg") =
      "data:" ++ "image/jpeg" ++ ";base64," ++ "QUJD" ∧
    format_for_provider "lmstudio" "QUJD" none = "data:" ++ "image/png" ++ ";base64," ++ "QUJD" ∧
    format_for_provider "ollama" "data:image/png;base64,QUJD" (some "image/jpeg") = "QUJD" ∧
    format_for_provider "ollama" "QUJD" (some "image/jpeg") = "QUJD" ∧
    ((∀ b ∈ [65, 66, 67], b < 256) ∧
      b64decodeChars (b64encodeBytes [65, 66, 67]) = some [65, 66, 67]) :=
  ⟨by decide,
   (claim_C6 "data:image/png;base64,QUJD" "" (some "image/jpeg") []).1 (by decide),
   by decide,
   (claim_C6 "QUJD" "image/jpeg" none []).2.1 (by decide) (by decide),
   (claim_C6 "QUJD" "" none []).2.2.1 (by decide),
   ((claim_C6 "data:image/png;base64,QUJD" "" (some "image/jpeg") []).2.2.2.1 (by decide)).trans (by decide),
   (claim_C6 "QUJD" "" (some "image/jpeg") []).2.2.2.2.1 (by decide),
   by decide,
   (claim_C6 "" "" none [65, 66, 67]).2.2.2.2.2 (by decide)⟩

/-- Both clients define chat. -/
theorem hasChat_true (c : Client) : hasChat c = true := by cases c <;> rfl

/-- Both clients define vision. -/
theorem hasVision_true (c : Client) : hasVision c = true := by cases c <;> rfl

/-- C3 (amended): a provider name whose lower-cased form is a configured key
resolves to that key's client whatever its letter case; two non-empty names
with the same lower-cased form resolve identically; a NON-EMPTY name whose
lower-cased form is not configured fails with the unsupported-provider
ValueError; an absent name behaves exactly like passing the configured
default provider name.  (The empty name is falsy in Python, so it falls back
to the default provider instead of failing; see the counterexample.) -/
theorem claim_C3 (st : MCPServerState) (s s1 s2 : String) (c : Client) :
    (lookupKey clientsMap (strToLower s) = some c →
      st.get_client (some (.str s)) = .ok (strToLower s, c)) ∧
    (s1 ≠ "" → s2 ≠ "" → strToLower s1 = strToLower s2 →
      st.get_client (some (.str s1)) = st.get_client (some (.str s2))) ∧
    (s ≠ "" → lookupKey clientsMap (strToLower s) = none →
      st.get_client (some (.str s)) =
        .error (.validation (unsupportedProviderMsg (strToLower s)))) ∧
    st.get_client none = st.get_client (some (.str st.config.default_provider)) := by
  refine ⟨?_, ?_, ?_, ?_⟩
  · intro h
    have hs : s ≠ "" := by
      intro he
      subst he
      cases c <;> revert h <;> decide
    simp [MCPServerState.get_client, pyOr, truthy, hs, h]
  · intro h1 h2 h12
    simp [MCPServerState.get_client, pyOr, truthy, h1, h2, h12]
  · intro hs h
    simp [MCPServerState.get_client, pyOr, truthy, hs, h]
  · cases h : truthy (.str st.config.default_provider) <;>
      simp [MCPServerState.get_client, pyOr, h]

/-- C3 counterexample: the empty provider name is not a configured key, yet
get_client succeeds with the default provider, because the empty string is
falsy and `provider or default` replaces it before the membership test. -/
theorem claim_C3_cex :
    lookupKey clientsMap (strToLower "") = none ∧
    MCPServerState.get_client st0 (some (.str "")) = .ok ("lmstudio", Client.lmstudio) :=
  ⟨by decide, rfl⟩

/-- Closed instantiation of claim_C3 at concrete provider names. -/
theorem claim_C3_witness :
    (lookupKey clientsMap (strToLower "LMStudio") = some Client.lmstudio) ∧
    MCPServerState.get_client st0 (some (.str "LMStudio")) =
      .ok (strToLower "LMStudio", Client.lmstudio) ∧
    MCPServerState.get_client st0 (some (.str "OLLAMA")) =
      MCPServerState.get_client st0 (some (.str "Ollama")) ∧
    MCPServerState.get_client st0 (some (.str "bogus")) =
      .error (.validation (unsupportedProviderMsg (strToLower "bogus"))) ∧
    MCPServerState.get_client st0 none =
      MCPServerState.get_client st0 (some (.str st0.config.default_provider)) :=
  ⟨by decide,
   (claim_C3 st0 "LMStudio" "" "" Client.lmstudio).1 (by decide),
   (claim_C3 st0 "" "OLLAMA" "Ollama" Client.lmstudio).2.1 (by decide) (by decide) (by decide),
   (claim_C3 st0 "bogus" "" "" Client.lmstudio).2.2.1 (by decide) (by decide),
   (claim_C3 st0 "" "" "" Client.lmstudio).2.2.2⟩

/-- C9: provider resolution happens before any field validation: a payload
naming an unconfigured (non-empty, string) provider makes chat, vision and
batch fail with the unsupported-provider ValueError and perform no client
call, whatever the messages or images fields contain. -/
theorem claim_C9 (st : MCPServerState) (env : Env) (kvs : List (String × Json)) (s : String)
    (hp : lookupKey kvs "provider" = some (.str s))
    (hne : s ≠ "")
    (hnf : lookupKey clientsMap (strToLower s) = none) :
    MCPServerState.chat st env (.obj kvs) =
      (.error (.validation (unsupportedProviderMsg (strToLower s))), []) ∧
    MCPServerState.vision st env (.obj kvs) =
      (.error (.validation (unsupportedProviderMsg (strToLower s))), []) ∧
    MCPServerState.batch st env (.obj kvs) =
      (.error (.validation (unsupportedProviderMsg (strToLower s))), []) := by
  have hg : st.get_client ((Json.obj kvs).objGet "provider") =
      .error (.validation (unsupportedProviderMsg (strToLower s))) := by
    simp [MCPServerState.get_client, Json.objGet, hp, pyOr, truthy, hne, hnf]
  exact ⟨by simp [MCPServerState.chat, hg],
         by simp [MCPServerState.vision, hg],
         by simp [MCPServerState.batch, hg]⟩

/-- Closed instantiation of claim_C9: unknown provider plus missing messages
and images fields still yields the unsupported-provider error. -/
theorem claim_C9_witness :
    (lookupKey [("provider", Json.str "Bogus")] "provider" = some (Json.str "Bogus")) ∧
    ("Bogus" ≠ "") ∧
    (lookupKey clientsMap (strToLower "Bogus") = none) ∧
    (MCPServerState.chat st0 env0 (.obj [("provider", Json.str "Bogus")]) =
      (.error (.validation (unsupportedProviderMsg (strToLower "Bogus"))), []) ∧
     MCPServerState.vision st0 env0 (.obj [("provider", Json.str "Bogus")]) =
      (.error (.validation (unsupportedProviderMsg (strToLower "Bogus"))), []) ∧
     MCPServerState.batch st0 env0 (.obj [("provider", Json.str "Bogus")]) =
      (.error (.validation (unsupportedProviderMsg (strToLower "Bogus"))), [])) :=
  ⟨rfl, by decide, by decide,
   claim_C9 st0 env0 [("provider", Json.str "Bogus")] "Bogus" rfl (by decide) (by decide)⟩

/-- Environment whose provider calls all fail with an LLMClientError, as
after a backend HTTP error in _post_json. -/
def envFail : Env where
  readFile := fun _ => none
  guessMime := fun _ => none
  lmChat := fun _ _ _ => .error (.provider "HTTP 500 error from provider: boom")
  ollamaChat := fun _ _ => .error (.provider "HTTP 500 error from provider: boom")
  lmVision := fun _ _ _ => .error (.provider "HTTP 500 error from provider: boom")
  ollamaVision := fun _ _ _ => .error (.provider "HTTP 500 error from provider: boom")

/-- C8: on the dispatcher routes, a missing or undecodable body is answered
400 with the parse message; a ValueError or LLMClientError escaping the
dispatcher is answered 400 with its message; any other exception is
answered 500 with its message; a successful dispatch is answered 200 with
its result. -/
theorem claim_C8 (st : MCPServerState) (env : Env) (path : String) (p r : Json)
    (m : String) (calls : List Call)
    (hroute : path = "/chat" ∨ path = "/analyze" ∨ path = "/batch") :
    (do_POST st env path .missing =
      (⟨400, some (.obj [("error", .str "Missing request body")])⟩, [])) ∧
    (do_POST st env path (.invalid m) =
      (⟨400, some (.obj [("error", .str ("Invalid JSON payload: " ++ m))])⟩, [])) ∧
    (dispatchPost st env path p = some (.error (.validation m), calls) →
      do_POST st env path (.json p) =
        (⟨400, some (.obj [("error", .str m)])⟩, calls)) ∧
    (dispatchPost st env path p = some (.error (.provider m), calls) →
      do_POST st env path (.json p) =
        (⟨400, some (.obj [("error", .str m)])⟩, calls)) ∧
    (dispatchPost st env path p = some (.error (.other m), calls) →
      do_POST st env path (.json p) =
        (⟨500, some (.obj [("error", .str m)])⟩, calls)) ∧
    (dispatchPost st env path p = some (.ok r, calls) →
      do_POST st env path (.json p) = (⟨200, some r⟩, calls)) := by
  refine ⟨rfl, rfl, ?_, ?_, ?_, ?_⟩ <;>
    intro h <;> simp [do_POST, parse_json, h, Err.status, Err.msg]

/-- Closed instantiation of claim_C8 on /chat: missing body, invalid body,
ValueError (unknown provider), LLMClientError (failing backend), another
exception (payload.get on a JSON list), and a successful dispatch. -/
theorem claim_C8_witness :
    ("/chat" = "/chat" ∨ "/chat" = "/analyze" ∨ "/chat" = "/batch") ∧
    do_POST st0 env0 "/chat" .missing =
      (⟨400, some (.obj [("error", .str "Missing request body")])⟩, []) ∧
    do_POST st0 env0 "/chat" (.invalid "Expecting value") =
      (⟨400, some (.obj [("error", .str ("Invalid JSON payload: " ++ "Expecting value"))])⟩, []) ∧
    (dispatchPost st0 env0 "/chat" (.obj [("provider", Json.str "x")]) =
      some (.error (.validation (unsupportedProviderMsg "x")), [])) ∧
    do_POST st0 env0 "/chat" (.json (.obj [("provider", Json.str "x")])) =
      (⟨400, some (.obj [("error", .str (unsupportedProviderMsg "x"))])⟩, []) ∧
    (dispatchPost st0 envFail "/chat" (.obj [("messages", Json.arr [Json.str "hi"])]) =
      some (.error (.provider "HTTP 500 error from provider: boom"),
            [⟨Client.lmstudio, "chat"⟩])) ∧
    do_POST st0 envFail "/chat" (.json (.obj [("messages", Json.arr [Json.str "hi"])])) =
      (⟨400, some (.obj [("error", .str "HTTP 500 error from provider: boom")])⟩,
       [⟨Client.lmstudio, "chat"⟩]) ∧
    (dispatchPost st0 env0 "/chat" (.arr []) =
      some (.error (.other (noAttrMsg "list" "get")), [])) ∧
    do_POST st0 env0 "/chat" (.json (.arr [])) =
      (⟨500, some (.obj [("error", .str (noAttrMsg "list" "get"))])⟩, []) ∧
    (dispatchPost st0 env0 "/chat" (.obj [("messages", Json.arr [Json.str "hi"])]) =
      some (.ok (.obj [("provider", Json.str "lmstudio"), ("response", Json.str "lm-chat")]),
            [⟨Client.lmstudio, "chat"⟩])) ∧
    do_POST st0 env0 "/chat" (.json (.obj [("messages", Json.arr [Json.str "hi"])])) =
      (⟨200, some (.obj [("provider", Json.str "lmstudio"), ("response", Json.str "lm-chat")])⟩,
       [⟨Client.lmstudio, "chat"⟩]) :=
  ⟨Or.inl rfl,
   (claim_C8 st0 env0 "/chat" .null .null "" [] (Or.inl rfl)).1,
   (claim_C8 st0 env0 "/chat" .null .null "Expecting value" [] (Or.inl rfl)).2.1,
   rfl,
   (claim_C8 st0 env0 "/chat" (.obj [("provider", Json.str "x")]) .null
     (unsupportedProviderMsg "x") [] (Or.inl rfl)).2.2.1 rfl,
   rfl,
   (claim_C8 st0 envFail "/chat" (.obj [("messages", Json.arr [Json.str "hi"])]) .null
     "HTTP 500 error from provider: boom" [⟨Client.lmstudio, "chat"⟩] (Or.inl rfl)).2.2.2.1 rfl,
   rfl,
   (claim_C8 st0 env0 "/chat" (.arr []) .null (noAttrMsg "list" "get") []
     (Or.inl rfl)).2.2.2.2.1 rfl,
   rfl,
   (claim_C8 st0 env0 "/chat" (.obj [("messages", Json.arr [Json.str "hi"])])
     (.obj [("provider", Json.str "lmstudio"), ("response", Json.str "lm-chat")]) ""
     [⟨Client.lmstudio, "chat"⟩] (Or.inl rfl)).2.2.2.2.2 rfl⟩

/-- C2 (amended): GET to paths other than /health and /config is answered
404 Unknown endpoint, and so is POST to paths outside the three dispatcher
routes when its body decodes as JSON; but a POST whose body is missing or
undecodable is answered 400 by body parsing, which runs before routing, even
on unknown paths; OPTIONS is always answered 204; methods without a do_
handler are answered by the HTTP library outside this layer. -/
theorem claim_C2 (st : MCPServerState) (env : Env) (path : String) (body : Body)
    (p : Json) (m : String)
    (hh : path ≠ "/health") (hc : path ≠ "/config")
    (h1 : path ≠ "/chat") (h2 : path ≠ "/analyze") (h3 : path ≠ "/batch") :
    (handle st env .get path body).1 =
      ⟨404, some (.obj [("error", .str "Unknown endpoint")])⟩ ∧
    handle st env .post path (.json p) =
      (⟨404, some (.obj [("error", .str "Unknown endpoint")])⟩, []) ∧
    handle st env .post path .missing =
      (⟨400, some (.obj [("error", .str "Missing request body")])⟩, []) ∧
    handle st env .post path (.invalid m) =
      (⟨400, some (.obj [("error", .str ("Invalid JSON payload: " ++ m))])⟩, []) ∧
    handle st env .options path body = (⟨204, none⟩, []) := by
  refine ⟨?_, ?_, rfl, rfl, rfl⟩
  · simp [handle, do_GET, hh, hc]
  · simp [handle, do_POST, parse_json, dispatchPost, h1, h2, h3]

/-- C2 counterexample: a POST to an unknown path with a missing body is
answered 400 (body parsing precedes routing), not 404 as the claim states
for every unmatched method/path pair regardless of body. -/
theorem claim_C2_cex :
    (handle st0 env0 .post "/nope" .missing).1.status = 400 ∧
    ((handle st0 env0 .post "/nope" .missing).1.status = 404 → False) :=
  ⟨rfl, by decide⟩

/-- Closed instantiation of claim_C2 at an unknown path. -/
theorem claim_C2_witness :
    ("/nope" ≠ "/health") ∧ ("/nope" ≠ "/config") ∧ ("/nope" ≠ "/chat") ∧
    ("/nope" ≠ "/analyze") ∧ ("/nope" ≠ "/batch") ∧
    ((handle st0 env0 .get "/nope" .missing).1 =
      ⟨404, some (.obj [("error", .str "Unknown endpoint")])⟩ ∧
     handle st0 env0 .post "/nope" (.json (.obj [])) =
      (⟨404, some (.obj [("error", .str "Unknown endpoint")])⟩, []) ∧
     handle st0 env0 .post "/nope" .missing =
      (⟨400, some (.obj [("error", .str "Missing request body")])⟩, []) ∧
     handle st0 env0 .post "/nope" (.invalid "bad") =
      (⟨400, some (.obj [("error", .str ("Invalid JSON payload: " ++ "bad"))])⟩, []) ∧
     handle st0 env0 .options "/nope" .missing = (⟨204, none⟩, [])) :=
  ⟨by decide, by decide, by decide, by decide, by decide,
   claim_C2 st0 env0 "/nope" .missing (.obj []) "bad"
     (by decide) (by decide) (by decide) (by decide) (by decide)⟩

/-- Field check `not isinstance(x, list) or not x` as a predicate on the
looked-up field value: true when the field is missing, not a list, or an
empty list. -/
def notNonEmptyList : Option Json → Bool
  | some (.arr (_ :: _)) => false
  | _ => true

/-- Provider field values for which get_client raises at most a ValueError:
absent, a string, or falsy (a truthy non-string raises AttributeError at
.lower()). -/
def providerFieldBenign : Option Json → Bool
  | none => true
  | some (.str _) => true
  | some v => !truthy v

/-- On a benign provider field, get_client either succeeds or raises a
ValueError. -/
theorem get_client_benign (st : MCPServerState) (pv : Option Json)
    (hb : providerFieldBenign pv = true) :
    (∃ nc, st.get_client pv = .ok nc) ∨
    (∃ m, st.get_client pv = .error (.validation m)) := by
  have hstr : ∀ t : String,
      (∃ nc, st.get_client (some (.str t)) = .ok nc) ∨
      (∃ m, st.get_client (some (.str t)) = .error (.validation m)) := by
    intro t
    by_cases ht : truthy (.str t) = true
    · cases hl : lookupKey clientsMap (strToLower t) with
      | some c =>
        exact Or.inl ⟨(strToLower t, c), by simp [MCPServerState.get_client, pyOr, ht, hl]⟩
      | none =>
        exact Or.inr ⟨unsupportedProviderMsg (strToLower t),
          by simp [MCPServerState.get_client, pyOr, ht, hl]⟩
    · cases hl : lookupKey clientsMap (strToLower st.config.default_provider) with
      | some c =>
        refine Or.inl ⟨(strToLower st.config.default_provider, c), ?_⟩
        simp [MCPServerState.get_client, pyOr, ht, hl]
      | none =>
        refine Or.inr ⟨unsupportedProviderMsg (strToLower st.config.default_provider), ?_⟩
        simp [MCPServerState.get_client, pyOr, ht, hl]
  have hdef :
      (∃ nc, st.get_client none = .ok nc) ∨
      (∃ m, st.get_client none = .error (.validation m)) := by
    cases hl : lookupKey clientsMap (strToLower st.config.default_provider) with
    | some c =>
      exact Or.inl ⟨(strToLower st.config.default_provider, c),
        by simp [MCPServerState.get_client, pyOr, hl]⟩
    | none =>
      exact Or.inr ⟨unsupportedProviderMsg (strToLower st.config.default_provider),
        by simp [MCPServerState.get_client, pyOr, hl]⟩
  match pv, hb with
  | none, _ => exact hdef
  | some (.str t), _ => exact hstr t
  | some (.null), _ =>
    have : st.get_client (some .null) = st.get_client none := by
      simp [MCPServerState.get_client, pyOr, truthy]
    rw [this]; exact hdef
  | some (.bool b), hb =>
    have hf : truthy (.bool b) = false := by
      simpa [providerFieldBenign] using hb
    have : st.get_client (some (.bool b)) = st.get_client none := by
      simp [MCPServerState.get_client, pyOr, hf]
    rw [this]; exact hdef
  | some (.num q), hb =>
    have hf : truthy (.num q) = false := by
      simpa [providerFieldBenign] using hb
    have : st.get_client (some (.num q)) = st.get_client none := by
      simp [MCPServerState.get_client, pyOr, hf]
    rw [this]; exact hdef
  | some (.arr xs), hb =>
    have hf : truthy (.arr xs) = false := by
      simpa [providerFieldBenign] using hb
    have : st.get_client (some (.arr xs)) = st.get_client none := by
      simp [MCPServerState.get_client, pyOr, hf]
    rw [this]; exact hdef
  | some (.obj kvs), hb =>
    have hf : truthy (.obj kvs) = false := by
      simpa [providerFieldBenign] using hb
    have : st.get_client (some (.obj kvs)) = st.get_client none := by
      simp [MCPServerState.get_client, pyOr, hf]
    rw [this]; exact hdef

/-- An invalid field value makes the non-empty-list check raise its
ValueError. -/
theorem requireNonEmptyList_fails (v : Option Json) (msg : String)
    (h : notNonEmptyList v = true) :
    requireNonEmptyList v msg = .error (.validation msg) := by
  match v, h with
  | none, _ => rfl
  | some (.null), _ => rfl
  | some (.bool b), _ => rfl
  | some (.num q), _ => rfl
  | some (.str s), _ => rfl
  | some (.arr []), _ => rfl
  | some (.obj kvs), _ => rfl

/-- C4 (amended): when the provider field is absent, falsy, or a string, a
chat payload whose messages field is missing, not a list, or empty fails
with some ValueError without any provider-client invocation; likewise
vision and batch for the images field.  (A truthy non-string provider field
instead raises AttributeError before the field checks; see the
counterexample.) -/
theorem claim_C4 (st : MCPServerState) (env : Env) (kvs : List (String × Json))
    (hb : providerFieldBenign (lookupKey kvs "provider") = true) :
    (notNonEmptyList (lookupKey kvs "messages") = true →
      ∃ m, MCPServerState.chat st env (.obj kvs) = (.error (.validation m), [])) ∧
    (notNonEmptyList (lookupKey kvs "images") = true →
      (∃ m, MCPServerState.vision st env (.obj kvs) = (.error (.validation m), [])) ∧
      (∃ m, MCPServerState.batch st env (.obj kvs) = (.error (.validation m), []))) := by
  have hb' : providerFieldBenign ((Json.obj kvs).objGet "provider") = true := by
    simpa [Json.objGet] using hb
  rcases get_client_benign st ((Json.obj kvs).objGet "provider") hb' with ⟨⟨n, c⟩, hg⟩ | ⟨m, hg⟩
  · constructor
    · intro hm
      refine ⟨messagesMsg, ?_⟩
      have hr : requireNonEmptyList ((Json.obj kvs).objGet "messages") messagesMsg
          = .error (.validation messagesMsg) :=
        requireNonEmptyList_fails _ _ (by simpa [Json.objGet] using hm)
      simp [MCPServerState.chat, hg, hr]
    · intro hi
      have hr := requireNonEmptyList_fails ((Json.obj kvs).objGet "images") imagesMsg
        (by simpa [Json.objGet] using hi)
      exact ⟨⟨imagesMsg, by simp [MCPServerState.vision, hg, hr]⟩,
             ⟨imagesMsg, by simp [MCPServerState.batch, hg, hr]⟩⟩
  · exact ⟨fun _ => ⟨m, by simp [MCPServerState.chat, hg]⟩,
           fun _ => ⟨⟨m, by simp [MCPServerState.vision, hg]⟩,
                     ⟨m, by simp [MCPServerState.batch, hg]⟩⟩⟩

/-- C4 counterexample: with a truthy non-string provider field and a missing
messages field, chat raises AttributeError (an unhandled error, answered
500), not a ValueError, so the claim's unconditional ValidationError fails. -/
theorem claim_C4_cex :
    (notNonEmptyList (lookupKey [("provider", Json.num 5)] "messages") = true) ∧
    MCPServerState.chat st0 env0 (.obj [("provider", Json.num 5)]) =
      (.error (.other (noAttrMsg "int" "lower")), []) ∧
    Err.isValidation (.other (noAttrMsg "int" "lower")) = false ∧
    (do_POST st0 env0 "/chat" (.json (.obj [("provider", Json.num 5)]))).1.status = 500 :=
  ⟨by decide, rfl, by decide, rfl⟩

/-- Closed instantiation of claim_C4: empty messages and missing images. -/
theorem claim_C4_witness :
    (providerFieldBenign (lookupKey [("messages", Json.arr [])] "provider") = true) ∧
    (notNonEmptyList (lookupKey [("messages", Json.arr [])] "messages") = true) ∧
    (∃ m, MCPServerState.chat st0 env0 (.obj [("messages", Json.arr [])]) =
      (.error (.validation m), [])) ∧
    (notNonEmptyList (lookupKey [("messages", Json.arr [])] "images") = true) ∧
    ((∃ m, MCPServerState.vision st0 env0 (.obj [("messages", Json.arr [])]) =
      (.error (.validation m), [])) ∧
     (∃ m, MCPServerState.batch st0 env0 (.obj [("messages", Json.arr [])]) =
      (.error (.validation m), []))) :=
  ⟨by decide, by decide,
   (claim_C4 st0 env0 [("messages", Json.arr [])] (by decide)).1 (by decide),
   by decide,
   (claim_C4 st0 env0 [("messages", Json.arr [])] (by decide)).2 (by decide)⟩

/-- MCPServerState.chat with the hasattr capability guard and its raise
branch removed, used only to state that the guard is unreachable. -/
def chat_unchecked (st : MCPServerState) (env : Env) (payload : Json) :
    Except Err Json × List Call :=
  match payload with
  | .obj _ =>
    (match st.get_client (payload.objGet "provider") with
     | .error e => (.error e, [])
     | .ok (provider_name, client) =>
       match requireNonEmptyList (payload.objGet "messages") messagesMsg with
       | .error e => (.error e, [])
       | .ok msgs =>
         let messages : Json := .arr msgs
         let model := payload.objGet "model"
         let temperature := (payload.objGet "temperature").getD (.num (2/10))
         (match clientChat client env messages model temperature with
          | .ok r => .ok (.obj [("provider", .str provider_name), ("response", r)])
          | .error e => .error e,
          [⟨client, "chat"⟩]))
  | v => (.error (.other (noAttrMsg (pyTypeName v) "get")), [])

/-- MCPServerState.vision with the capability guard removed. -/
def vision_unchecked (st : MCPServerState) (env : Env) (payload : Json) :
    Except Err Json × List Call :=
  match payload with
  | .obj _ =>
    (match st.get_client (payload.objGet "provider") with
     | .error e => (.error e, [])
     | .ok (provider_name, client) =>
       let prompt := pyOr (payload.objGet "prompt") (.str "Describe the image")
       match requireNonEmptyList (payload.objGet "images") imagesMsg with
       | .error e => (.error e, [])
       | .ok images =>
         match prepare_images provider_name env images with
         | .error e => (.error e, [])
         | .ok prepared =>
           let model := payload.objGet "model"
           (match clientVision client env prompt prepared model with
            | .ok r => .ok (.obj [("provider", .str provider_name), ("response", r)])
            | .error e => .error e,
            [⟨client, "vision"⟩]))
  | v => (.error (.other (noAttrMsg (pyTypeName v) "get")), [])

/-- MCPServerState.batch with the capability guard removed. -/
def batch_unchecked (st : MCPServerState) (env : Env) (payload : Json) :
    Except Err Json × List Call :=
  match payload with
  | .obj _ =>
    (match st.get_client (payload.objGet "provider") with
     | .error e => (.error e, [])
     | .ok (provider_name, client) =>
       let prompt := pyOr (payload.objGet "prompt") (.str "Describe the image")
       match requireNonEmptyList (payload.objGet "images") imagesMsg with
       | .error e => (.error e, [])
       | .ok items =>
         let model := payload.objGet "model"
         match batchLoop provider_name client env prompt model items with
         | (.error e, calls) => (.error e, calls)
         | (.ok results, calls) =>
           (.ok (.obj [("provider", .str provider_name), ("results", .arr results)]),
            calls))
  | v => (.error (.other (noAttrMsg (pyTypeName v) "get")), [])

/-- C10: every client get_client can return defines both chat and vision, so
the three does-not-support ValueError branches are unreachable: chat, vision
and batch coincide with their guard-free variants on every input. -/
theorem claim_C10 :
    (∀ (st : MCPServerState) (pv : Option Json) (n : String) (c : Client),
      st.get_client pv = .ok (n, c) → hasChat c = true ∧ hasVision c = true) ∧
    (∀ (st : MCPServerState) (env : Env) (payload : Json),
      MCPServerState.chat st env payload = chat_unchecked st env payload) ∧
    (∀ (st : MCPServerState) (env : Env) (payload : Json),
      MCPServerState.vision st env payload = vision_unchecked st env payload) ∧
    (∀ (st : MCPServerState) (env : Env) (payload : Json),
      MCPServerState.batch st env payload = batch_unchecked st env payload) := by
  refine ⟨fun st pv n c _ => ⟨hasChat_true c, hasVision_true c⟩, ?_, ?_, ?_⟩
  · intro st env payload
    cases payload <;> try rfl
    case obj kvs =>
      cases hg : st.get_client ((Json.obj kvs).objGet "provider") with
      | error e => simp [MCPServerState.chat, chat_unchecked, hg]
      | ok nc =>
        obtain ⟨n, c⟩ := nc
        cases hm : requireNonEmptyList ((Json.obj kvs).objGet "messages") messagesMsg with
        | error e => simp [MCPServerState.chat, chat_unchecked, hg, hm]
        | ok msgs =>
          cases c <;> simp [MCPServerState.chat, chat_unchecked, hg, hm, hasChat]
  · intro st env payload
    cases payload <;> try rfl
    case obj kvs =>
      cases hg : st.get_client ((Json.obj kvs).objGet "provider") with
      | error e => simp [MCPServerState.vision, vision_unchecked, hg]
      | ok nc =>
        obtain ⟨n, c⟩ := nc
        cases hm : requireNonEmptyList ((Json.obj kvs).objGet "images") imagesMsg with
        | error e => simp [MCPServerState.vision, vision_unchecked, hg, hm]
        | ok images =>
          cases hp : prepare_images n env images with
          | error e => simp [MCPServerState.vision, vision_unchecked, hg, hm, hp]
          | ok prepared =>
            cases c <;> simp [MCPServerState.vision, vision_unchecked, hg, hm, hp, hasVision]
  · intro st env payload
    cases payload <;> try rfl
    case obj kvs =>
      cases hg : st.get_client ((Json.obj kvs).objGet "provider") with
      | error e => simp [MCPServerState.batch, batch_unchecked, hg]
      | ok nc =>
        obtain ⟨n, c⟩ := nc
        cases hm : requireNonEmptyList ((Json.obj kvs).objGet "images") imagesMsg with
        | error e => simp [MCPServerState.batch, batch_unchecked, hg, hm]
        | ok items =>
          cases c <;> simp [MCPServerState.batch, batch_unchecked, hg, hm, hasVision]

/-- Closed instantiation of claim_C10. -/
theorem claim_C10_witness :
    (MCPServerState.get_client st0 (some (.str "ollama")) = .ok ("ollama", Client.ollama)) ∧
    (hasChat Client.ollama = true ∧ hasVision Client.ollama = true) ∧
    MCPServerState.chat st0 env0 (.obj [("messages", Json.arr [Json.str "hi"])]) =
      chat_unchecked st0 env0 (.obj [("messages", Json.arr [Json.str "hi"])]) ∧
    MCPServerState.vision st0 env0 (.obj []) = vision_unchecked st0 env0 (.obj []) ∧
    MCPServerState.batch st0 env0 (.obj []) = batch_unchecked st0 env0 (.obj []) :=
  ⟨rfl,
   claim_C10.1 st0 (some (.str "ollama")) "ollama" Client.ollama rfl,
   claim_C10.2.1 st0 env0 (.obj [("messages", Json.arr [Json.str "hi"])]),
   claim_C10.2.2.1 st0 env0 (.obj []),
   claim_C10.2.2.2 st0 env0 (.obj [])⟩

/-- Splitting lemma for the batch loop: a prefix of successful entries
followed by a failing one yields the failing entry's error, with one vision
call per successful prefix entry, the failing entry's calls, and nothing for
the remaining entries. -/
theorem batchLoop_first_failure (provider_name : String) (client : Client) (env : Env)
    (prompt : Json) (model : Option Json) (pre rest : List Json) (bad : Json) (err : Err)
    (hpre : ∀ e ∈ pre, ∃ r, entryStep provider_name client env prompt model e =
      (.ok r, [⟨client, "vision"⟩]))
    (hbad : (entryStep provider_name client env prompt model bad).1 = .error err) :
    batchLoop provider_name client env prompt model (pre ++ bad :: rest) =
      (.error err,
       List.replicate pre.length ⟨client, "vision"⟩ ++
         (entryStep provider_name client env prompt model bad).2) := by
  induction pre with
  | nil =>
    rcases hb : entryStep provider_name client env prompt model bad with ⟨res, calls⟩
    rw [hb] at hbad
    simp only at hbad
    subst hbad
    simp [batchLoop, hb]
  | cons e pre ih =>
    obtain ⟨r, hr⟩ := hpre e (by simp)
    have ih2 := ih (fun x hx => hpre x (by simp [hx]))
    simp [batchLoop, hr, ih2, List.replicate_succ]

/-- All-success lemma for the batch loop: results are one per entry, in
input order, each pairing the original entry with its response, with exactly
one vision call per entry. -/
theorem batchLoop_all_ok (provider_name : String) (client : Client) (env : Env)
    (prompt : Json) (model : Option Json) (items : List Json) (f : Json → Json)
    (hall : ∀ e ∈ items, entryStep provider_name client env prompt model e =
      (.ok (f e), [⟨client, "vision"⟩])) :
    batchLoop provider_name client env prompt model items =
      (.ok (items.map fun e => Json.obj [("image", e), ("response", f e)]),
       List.replicate items.length ⟨client, "vision"⟩) := by
  induction items with
  | nil => rfl
  | cons e items ih =>
    have he := hall e (by simp)
    have ih2 := ih (fun x hx => hall x (by simp [hx]))
    simp [batchLoop, he, ih2, List.replicate_succ]

/-- A non-empty list value passes the non-empty-list check. -/
theorem requireNonEmptyList_ok (items : List Json) (msg : String) (h : items ≠ []) :
    requireNonEmptyList (some (.arr items)) msg = .ok items := by
  cases items with
  | nil => exact absurd rfl h
  | cons x xs => rfl

/-- C1: the first failing entry of a batch aborts it: the remaining entries
trigger no vision call, the failing entry's error is the whole request's
error (mapped by do_POST to an error response), and the results already
computed for earlier entries are discarded and absent from the response. -/
theorem claim_C1 (st : MCPServerState) (env : Env) (kvs : List (String × Json))
    (provider_name : String) (client : Client) (prompt : Json) (model : Option Json)
    (pre rest : List Json) (bad : Json) (err : Err)
    (hget : st.get_client (lookupKey kvs "provider") = .ok (provider_name, client))
    (hprompt : prompt = pyOr (lookupKey kvs "prompt") (.str "Describe the image"))
    (hmodel : model = lookupKey kvs "model")
    (himages : lookupKey kvs "images" = some (.arr (pre ++ bad :: rest)))
    (hpre : ∀ e ∈ pre, ∃ r, entryStep provider_name client env prompt model e =
      (.ok r, [⟨client, "vision"⟩]))
    (hbad : (entryStep provider_name client env prompt model bad).1 = .error err) :
    MCPServerState.batch st env (.obj kvs) =
      (.error err,
       List.replicate pre.length ⟨client, "vision"⟩ ++
         (entryStep provider_name client env prompt model bad).2) ∧
    do_POST st env "/batch" (.json (.obj kvs)) =
      (⟨err.status, some (.obj [("error", .str err.msg)])⟩,
       List.replicate pre.length ⟨client, "vision"⟩ ++
         (entryStep provider_name client env prompt model bad).2) := by
  subst hprompt
  subst hmodel
  have hloop := batchLoop_first_failure provider_name client env
    (pyOr (lookupKey kvs "prompt") (.str "Describe the image")) (lookupKey kvs "model")
    pre rest bad err hpre hbad
  have hreq : requireNonEmptyList (lookupKey kvs "images") imagesMsg
      = .ok (pre ++ bad :: rest) := by
    rw [himages]
    exact requireNonEmptyList_ok _ _ (by cases pre <;> simp)
  have hbatch : MCPServerState.batch st env (.obj kvs) =
      (.error err,
       List.replicate pre.length ⟨client, "vision"⟩ ++
         (entryStep provider_name client env
           (pyOr (lookupKey kvs "prompt") (.str "Describe the image"))
           (lookupKey kvs "model") bad).2) := by
    simp only [MCPServerState.batch, Json.objGet, hget, hreq, hasVision_true client,
      eq_self_iff_true, if_true]
    rw [hloop]
  exact ⟨hbatch, by simp [do_POST, parse_json, dispatchPost, hbatch]⟩

/-- Closed instantiation of claim_C1: a batch over a readable file, an
unsupported entry shape, and a further file; the unsupported entry's
ValueError aborts the batch after a single vision call. -/
theorem claim_C1_witness :
    (entryStep "lmstudio" Client.lmstudio env0 (Json.str "Describe the image") none
      (Json.str "/ok.png") = (.ok (Json.str "lm-vision"), [⟨Client.lmstudio, "vision"⟩])) ∧
    ((entryStep "lmstudio" Client.lmstudio env0 (Json.str "Describe the image") none
      (Json.num 7)).1 = .error (.validation unsupportedEntryMsg)) ∧
    (MCPServerState.batch st0 env0
        (.obj [("images", Json.arr [Json.str "/ok.png", Json.num 7, Json.str "/z.png"])]) =
      (.error (.validation unsupportedEntryMsg), [⟨Client.lmstudio, "vision"⟩]) ∧
     do_POST st0 env0 "/batch"
        (.json (.obj [("images", Json.arr [Json.str "/ok.png", Json.num 7, Json.str "/z.png"])])) =
      (⟨400, some (.obj [("error", .str unsupportedEntryMsg)])⟩,
       [⟨Client.lmstudio, "vision"⟩])) := by
  refine ⟨rfl, rfl, ?_⟩
  have h := claim_C1 st0 env0
    [("images", Json.arr [Json.str "/ok.png", Json.num 7, Json.str "/z.png"])]
    "lmstudio" Client.lmstudio (Json.str "Describe the image") none
    [Json.str "/ok.png"] [Json.str "/z.png"] (Json.num 7)
    (.validation unsupportedEntryMsg)
    rfl rfl rfl rfl
    (by
      intro e he
      simp only [List.mem_singleton] at he
      subst he
      exact ⟨Json.str "lm-vision", rfl⟩)
    rfl
  exact ⟨h.1.trans rfl, h.2.trans rfl⟩

/-- C7: a batch in which every entry succeeds returns one result per input
entry, in input order, each pairing the original un-normalised entry with
its provider response. -/
theorem claim_C7 (st : MCPServerState) (env : Env) (kvs : List (String × Json))
    (provider_name : String) (client : Client) (prompt : Json) (model : Option Json)
    (items : List Json) (f : Json → Json)
    (hget : st.get_client (lookupKey kvs "provider") = .ok (provider_name, client))
    (hprompt : prompt = pyOr (lookupKey kvs "prompt") (.str "Describe the image"))
    (hmodel : model = lookupKey kvs "model")
    (himages : lookupKey kvs "images" = some (.arr items))
    (hne : items ≠ [])
    (hall : ∀ e ∈ items, entryStep provider_name client env prompt model e =
      (.ok (f e), [⟨client, "vision"⟩])) :
    MCPServerState.batch st env (.obj kvs) =
      (.ok (.obj [("provider", .str provider_name),
            ("results", .arr (items.map fun e => Json.obj [("image", e), ("response", f e)]))]),
       List.replicate items.length ⟨client, "vision"⟩) := by
  subst hprompt
  subst hmodel
  have hloop := batchLoop_all_ok provider_name client env
    (pyOr (lookupKey kvs "prompt") (.str "Describe the image")) (lookupKey kvs "model")
    items f hall
  have hreq : requireNonEmptyList (lookupKey kvs "images") imagesMsg = .ok items := by
    rw [himages]
    exact requireNonEmptyList_ok _ _ hne
  simp only [MCPServerState.batch, Json.objGet, hget, hreq, hasVision_true client,
    eq_self_iff_true, if_true]
  rw [hloop]

/-- Closed instantiation of claim_C7: two readable entries yield two results
in input order and two vision calls. -/
theorem claim_C7_witness :
    (∀ e ∈ [Json.str "/ok.png", Json.obj [("base64", Json.str "QUJD")]],
      entryStep "lmstudio" Client.lmstudio env0 (Json.str "hi") none e =
        (.ok (Json.str "lm-vision"), [⟨Client.lmstudio, "vision"⟩])) ∧
    MCPServerState.batch st0 env0
        (.obj [("prompt", Json.str "hi"),
               ("images", Json.arr [Json.str "/ok.png",
                                    Json.obj [("base64", Json.str "QUJD")]])]) =
      (.ok (.obj [("provider", Json.str "lmstudio"),
            ("results", Json.arr
              [Json.obj [("image", Json.str "/ok.png"), ("response", Json.str "lm-vision")],
               Json.obj [("image", Json.obj [("base64", Json.str "QUJD")]),
                         ("response", Json.str "lm-vision")]])]),
       [⟨Client.lmstudio, "vision"⟩, ⟨Client.lmstudio, "vision"⟩]) := by
  have hall : ∀ e ∈ [Json.str "/ok.png", Json.obj [("base64", Json.str "QUJD")]],
      entryStep "lmstudio" Client.lmstudio env0 (Json.str "hi") none e =
        (.ok (Json.str "lm-vision"), [⟨Client.lmstudio, "vision"⟩]) := by
    intro e he
    simp only [List.mem_cons, List.mem_singleton] at he
    rcases he with he | he | he
    · subst he; rfl
    · subst he; rfl
    · cases he
  refine ⟨hall, ?_⟩
  have h := claim_C7 st0 env0
    [("prompt", Json.str "hi"),
     ("images", Json.arr [Json.str "/ok.png", Json.obj [("base64", Json.str "QUJD")]])]
    "lmstudio" Client.lmstudio (Json.str "hi") none
    [Json.str "/ok.png", Json.obj [("base64", Json.str "QUJD")]]
    (fun _ => Json.str "lm-vision")
    rfl rfl rfl rfl (List.cons_ne_nil _ _) hall
  exact h.trans rfl
